import Mathlib

/-!
Verification of the Qivo streaming voice pipeline.

This file is a shallow embedding of the server-side core of the repository:
message routing and the connection registry (`server/services/websocket.ts`),
the debounced chunk aggregator (`ultraFastProcessor`), the request
deduplicator (`server/services/voiceProcessor.ts`), the transcription and
emotion-analysis adapters (`server/services/openai.ts`), and the two-speed
fast/background orchestration (`fastVoiceProcessor`).

External collaborators (the OpenAI providers, durable storage) are modelled
as explicit parameters: a provider outcome is an `Except` value supplied to
the embedded function, and storage is threaded as an explicit list of
records.  JavaScript numbers that the code only compares and clamps are
modelled as `Rat`; byte buffers are lists of bytes (`List Nat`).
-/

namespace Qivo

/-- A byte buffer (Node `Buffer`), as its list of bytes. -/
abbrev Buf := List Nat

/-! ## Message routing (`VoiceWebSocketServer.handleMessage`)

`handleMessage` first checks `data.length > 100` and, if so, treats the
payload as audio without ever calling `JSON.parse`; otherwise it tries to
parse the payload as a `VoiceMessage` control message and falls back to the
audio path when parsing fails.  JSON parsing itself is external to the
routing decision, so the embedding takes the parse function as a parameter.
-/

/-- The `VoiceMessage` shape from `shared/schema` as far as routing needs it:
a message type tag plus an opaque payload. -/
structure VoiceMessage where
  type : String
  data : String
deriving DecidableEq, Repr

/-- Where `handleMessage` routes an inbound payload. -/
inductive RouteDecision where
  | audio
  | control (m : VoiceMessage)
deriving DecidableEq, Repr

/-- `VoiceWebSocketServer.handleMessage` (websocket.ts lines 87-112), routing
only: payloads over 100 bytes go to `handleAudioData` directly; smaller
payloads are first parsed as JSON control messages, and a failed parse also
goes to `handleAudioData`. -/
def handleMessage (parse : Buf → Option VoiceMessage) (data : Buf) : RouteDecision :=
  if 100 < data.length then
    RouteDecision.audio
  else
    match parse data with
    | some m => RouteDecision.control m
    | none => RouteDecision.audio

/-! ## Chunk aggregator (`UltraFastProcessor`)

`processAudioChunkUltraFast` appends the chunk to the per-client buffer,
cancels any pending debounce timer and schedules a fresh one.  When the
timer fires, `processAccumulatedAudioUltraFast` concatenates the buffered
chunks; segments under 512 bytes return early (without clearing the buffer
and without calling the transcription provider), larger segments are
transcribed and the buffer is cleared. -/

/-- Per-client aggregator state: the buffered chunks for this client and
whether a debounce timer is currently pending. -/
structure UltraState where
  chunks : List Buf
  pendingTimer : Bool
deriving DecidableEq, Repr

/-- `UltraFastProcessor.processAudioChunkUltraFast` (part_003 lines 9-35):
append the chunk, clear any existing timeout, set a new one. -/
def processAudioChunkUltraFast (s : UltraState) (c : Buf) : UltraState :=
  { chunks := s.chunks ++ [c], pendingTimer := true }

/-- Result of a timer fire: the state afterwards, the segment handed to the
transcription provider (if any), and the number of transcription calls. -/
structure UltraFlushResult where
  state : UltraState
  flushed : Option Buf
  transcriptionCalls : Nat
deriving DecidableEq, Repr

/-- `UltraFastProcessor.processAccumulatedAudioUltraFast` (part_003 lines
37-100), up to the transcription call: an empty buffer is a no-op; a
combined segment under 512 bytes returns early, leaving `audioChunks`
untouched; otherwise the combined segment is transcribed and the buffer is
reset to `[]`. -/
def processAccumulatedAudioUltraFast (s : UltraState) : UltraFlushResult :=
  if s.chunks.isEmpty then
    { state := { s with pendingTimer := false }, flushed := none, transcriptionCalls := 0 }
  else
    let combinedBuffer := s.chunks.flatten
    if combinedBuffer.length < 512 then
      { state := { s with pendingTimer := false }, flushed := none, transcriptionCalls := 0 }
    else
      { state := { chunks := [], pendingTimer := false },
        flushed := some combinedBuffer,
        transcriptionCalls := 1 }

/-- Ingest a whole sequence of fragments (all arriving inside one debounce
window, so every ingest cancels the previous timer). -/
def runWindow (cs : List Buf) : UltraState :=
  cs.foldl processAudioChunkUltraFast { chunks := [], pendingTimer := false }

/-- Number of debounce timers still pending after a window: each ingest
cancelled the previous timer, so at most one survives. -/
def pendingTimers (s : UltraState) : Nat :=
  if s.pendingTimer then 1 else 0

lemma runWindow_chunks_aux (cs : List Buf) (s : UltraState) :
    (cs.foldl processAudioChunkUltraFast s).chunks = s.chunks ++ cs := by
  induction cs generalizing s with
  | nil => simp
  | cons c cs ih =>
    simp [List.foldl_cons, ih, processAudioChunkUltraFast, List.append_assoc]

lemma runWindow_chunks (cs : List Buf) : (runWindow cs).chunks = cs := by
  simp [runWindow, runWindow_chunks_aux]

lemma runWindow_pending (cs : List Buf) (hne : cs ≠ []) :
    (runWindow cs).pendingTimer = true := by
  induction cs using List.reverseRecOn with
  | nil => exact absurd rfl hne
  | append_singleton cs c _ =>
    simp [runWindow, List.foldl_append, processAudioChunkUltraFast]

/-! ## Transcription adapter (`OpenAIService.transcribeAudio`)

The adapter validates the buffer (non-empty, at least 1 KB), then calls the
Whisper provider; a provider error, or a successful response whose text is
empty or whitespace after trimming, is thrown as an error.  On success the
trimmed text is returned with a fixed confidence of 0.95.  The provider is a
parameter: `Except Unit String` is the raw outcome of the Whisper call. -/

/-- JavaScript `String.prototype.trim()` whitespace, restricted to the
ASCII whitespace characters that matter for the claims. -/
def isWhitespaceChar (c : Char) : Bool :=
  c = ' ' ∨ c = '\t' ∨ c = '\n' ∨ c = '\r'

/-- Strip leading and trailing whitespace from a character list. -/
def trimChars (l : List Char) : List Char :=
  ((l.dropWhile isWhitespaceChar).reverse.dropWhile isWhitespaceChar).reverse

/-- JavaScript `s.trim()` over the string's characters. -/
def strTrim (s : String) : String :=
  String.mk (trimChars s.data)

/-- Result shape of `OpenAIService.transcribeAudio`. -/
structure TranscriptionResult where
  text : String
  confidence : Rat
deriving DecidableEq, Repr

/-- `OpenAIService.transcribeAudio` (openai.ts lines 59-135).  The `Except`
error carries the thrown message. -/
def transcribeAudio (audioBuffer : Buf) (provider : Except Unit String) :
    Except String TranscriptionResult :=
  if audioBuffer.length = 0 then
    Except.error "No audio data provided"
  else if audioBuffer.length < 1024 then
    Except.error "Audio data too small to process"
  else
    match provider with
    | Except.error _ => Except.error "Transcription failed"
    | Except.ok t =>
      if (strTrim t).length = 0 then
        Except.error "No speech detected in audio"
      else
        Except.ok { text := strTrim t, confidence := 95 / 100 }

/-! ## Emotion analysis (`OpenAIService.analyzeEmotion`)

The provider returns a JSON object with optional fields; the adapter
normalizes it with JavaScript `||` defaults and `Math.max`/`Math.min`
clamping.  Any thrown error (provider failure or JSON parse failure) is
caught and replaced by a fixed neutral fallback record. -/

/-- The eight per-category emotion intensities. -/
structure Emotions where
  joy : Rat
  sadness : Rat
  anger : Rat
  fear : Rat
  surprise : Rat
  disgust : Rat
  trust : Rat
  anticipation : Rat
deriving DecidableEq, Repr

/-- Psychological sub-scores. -/
structure PsychologicalInsights where
  stressLevel : Rat
  engagementLevel : Rat
  cognitiveLoad : Rat
  emotionalStability : Rat
deriving DecidableEq, Repr

/-- Contextual sub-scores. -/
structure ContextualFactors where
  formality : Rat
  urgency : Rat
  clarity : Rat
  empathy : Rat
deriving DecidableEq, Repr

/-- `EmotionAnalysisResult` (openai.ts lines 14-43). -/
structure EmotionAnalysisResult where
  sentiment : String
  sentimentScore : Rat
  emotions : Emotions
  dominantEmotion : String
  emotionalIntensity : Rat
  confidence : Rat
  psychologicalInsights : PsychologicalInsights
  contextualFactors : ContextualFactors
  recommendations : List String
deriving DecidableEq, Repr

/-- The parsed provider JSON for the `emotions` block: every field may be
absent (`none`). -/
structure RawEmotions where
  joy : Option Rat := none
  sadness : Option Rat := none
  anger : Option Rat := none
  fear : Option Rat := none
  surprise : Option Rat := none
  disgust : Option Rat := none
  trust : Option Rat := none
  anticipation : Option Rat := none
deriving DecidableEq, Repr

/-- The parsed provider JSON for `psychologicalInsights`. -/
structure RawInsights where
  stressLevel : Option Rat := none
  engagementLevel : Option Rat := none
  cognitiveLoad : Option Rat := none
  emotionalStability : Option Rat := none
deriving DecidableEq, Repr

/-- The parsed provider JSON for `contextualFactors`. -/
structure RawContextual where
  formality : Option Rat := none
  urgency : Option Rat := none
  clarity : Option Rat := none
  empathy : Option Rat := none
deriving DecidableEq, Repr

/-- The parsed provider JSON object, with every numeric-position field
assumed to be a JSON number or absent (`Option Rat`); the general case,
where such a position may hold any JSON value, is covered by
`RawEmotionResponseJson` further below.  `recommendations = none` models
a value that is not an array (the `Array.isArray` check). -/
structure RawEmotionResponse where
  sentiment : Option String := none
  sentimentScore : Option Rat := none
  emotions : Option RawEmotions := none
  dominantEmotion : Option String := none
  emotionalIntensity : Option Rat := none
  confidence : Option Rat := none
  psychologicalInsights : Option RawInsights := none
  contextualFactors : Option RawContextual := none
  recommendations : Option (List String) := none
deriving DecidableEq, Repr

/-- JavaScript `x || d` on an optional number: absent and `0` are falsy. -/
def jsOrNum (x : Option Rat) (d : Rat) : Rat :=
  match x with
  | none => d
  | some v => if v = 0 then d else v

/-- JavaScript `x || d` on an optional string: absent and `""` are falsy. -/
def jsOrStr (x : Option String) (d : String) : String :=
  match x with
  | none => d
  | some s => if s = "" then d else s

/-- `Math.max lo (Math.min hi x)`. -/
def clampRat (lo hi x : Rat) : Rat :=
  max lo (min hi x)

/-- `['positive','negative','neutral'].includes(s) ? s : 'neutral'`, with an
absent `sentiment` field (undefined, falsy) also mapping to `'neutral'`. -/
def normalizeSentiment (s : Option String) : String :=
  match s with
  | none => "neutral"
  | some v =>
    if v = "positive" ∨ v = "negative" ∨ v = "neutral" then v else "neutral"

/-- The fixed neutral fallback record built in the `catch` branch of
`analyzeEmotion` (openai.ts lines 240-269). -/
def neutralFallback : EmotionAnalysisResult :=
  { sentiment := "neutral"
    sentimentScore := 0
    emotions :=
      { joy := 1 / 10, sadness := 1 / 10, anger := 1 / 10, fear := 1 / 10,
        surprise := 1 / 10, disgust := 1 / 10, trust := 2 / 10, anticipation := 2 / 10 }
    dominantEmotion := "neutral"
    emotionalIntensity := 3 / 10
    confidence := 5 / 10
    psychologicalInsights :=
      { stressLevel := 3 / 10, engagementLevel := 5 / 10,
        cognitiveLoad := 4 / 10, emotionalStability := 7 / 10 }
    contextualFactors :=
      { formality := 5 / 10, urgency := 3 / 10, clarity := 7 / 10, empathy := 5 / 10 }
    recommendations := ["Continue natural conversation", "Monitor for clearer emotional signals"] }

/-- Normalization of a successfully parsed provider response (openai.ts
lines 197-234): `result.emotions || \x7b\x7d` etc., then `||` defaults and
clamping field by field. -/
def normalizeEmotionResult (result : RawEmotionResponse) : EmotionAnalysisResult :=
  let emotions := result.emotions.getD {}
  let insights := result.psychologicalInsights.getD {}
  let contextual := result.contextualFactors.getD {}
  { sentiment := normalizeSentiment result.sentiment
    sentimentScore := clampRat (-1) 1 (jsOrNum result.sentimentScore 0)
    emotions :=
      { joy := clampRat 0 1 (jsOrNum emotions.joy 0)
        sadness := clampRat 0 1 (jsOrNum emotions.sadness 0)
        anger := clampRat 0 1 (jsOrNum emotions.anger 0)
        fear := clampRat 0 1 (jsOrNum emotions.fear 0)
        surprise := clampRat 0 1 (jsOrNum emotions.surprise 0)
        disgust := clampRat 0 1 (jsOrNum emotions.disgust 0)
        trust := clampRat 0 1 (jsOrNum emotions.trust 0)
        anticipation := clampRat 0 1 (jsOrNum emotions.anticipation 0) }
    dominantEmotion := jsOrStr result.dominantEmotion "neutral"
    emotionalIntensity := clampRat 0 1 (jsOrNum result.emotionalIntensity (5 / 10))
    confidence := clampRat 0 1 (jsOrNum result.confidence (8 / 10))
    psychologicalInsights :=
      { stressLevel := clampRat 0 1 (jsOrNum insights.stressLevel (3 / 10))
        engagementLevel := clampRat 0 1 (jsOrNum insights.engagementLevel (5 / 10))
        cognitiveLoad := clampRat 0 1 (jsOrNum insights.cognitiveLoad (4 / 10))
        emotionalStability := clampRat 0 1 (jsOrNum insights.emotionalStability (7 / 10)) }
    contextualFactors :=
      { formality := clampRat 0 1 (jsOrNum contextual.formality (5 / 10))
        urgency := clampRat 0 1 (jsOrNum contextual.urgency (3 / 10))
        clarity := clampRat 0 1 (jsOrNum contextual.clarity (7 / 10))
        empathy := clampRat 0 1 (jsOrNum contextual.empathy (5 / 10)) }
    recommendations :=
      match result.recommendations with
      | some l => l.take 3
      | none => ["Continue natural conversation", "Maintain current emotional tone"] }

/-- `OpenAIService.analyzeEmotion` (openai.ts lines 137-271).  The parameter
is the provider outcome: `Except.error` covers both a failed provider call
and an unparseable response, both of which land in the `catch` branch and
return the neutral fallback; the function itself never throws.

This embedding types numeric fields as `Option Rat`, i.e. it is the
restriction of `analyzeEmotion` to providers whose numeric-position fields
are JSON numbers or absent — which is all the pipeline-flow results below
depend on.  The full untyped behaviour, where a numeric position may hold
any JSON value and truthy non-numeric values flow through the clamps as
NaN, is embedded separately as `analyzeEmotionJson` below. -/
def analyzeEmotion (provider : Except Unit RawEmotionResponse) : EmotionAnalysisResult :=
  match provider with
  | Except.error _ => neutralFallback
  | Except.ok result => normalizeEmotionResult result

/-! ## The numeric pipeline of `analyzeEmotion` over untyped JSON

`JSON.parse` output is untyped, and openai.ts lines 197-234 apply
`x || default` and `Math.max(lo, Math.min(hi, x))` to it without any type
check.  Those operations observe exactly two attributes of a JSON value in
a numeric position: its JS truthiness, and the JS number it coerces to —
a truthy non-numeric value (a non-numeric string, an object) coerces to
NaN, and `Math.min`/`Math.max` propagate NaN.  This section re-embeds the
same source function over that untyped field representation. -/

/-- A JavaScript number: a rational value, or NaN. -/
inductive JsNum where
  | num (q : Rat)
  | nan
deriving DecidableEq, Repr

/-- An arbitrary JSON value in a numeric position, observed through the two
attributes the default-and-clamp pipeline depends on: JS truthiness, and
the JS number the value coerces to (`none` = NaN).  `undefined` (absent
field) is `⟨false, none⟩`, as is the NaN value itself; a number `q` is
`⟨q ≠ 0, some q⟩`; a truthy non-numeric value such as the string
"very high" or an object is `⟨true, none⟩`; a numeric string "0.5" is
`⟨true, some (1/2)⟩`. -/
structure RawField where
  truthy : Bool
  toNumber : Option Rat
deriving DecidableEq, Repr

/-- The absent (`undefined`) field. -/
def RawField.absent : RawField :=
  { truthy := false, toNumber := none }

/-- JavaScript `x || d` on a numeric-position field with number literal
default `d`, as seen by the downstream number coercion: a falsy `x`
selects `d`, a truthy `x` is kept and later coerces to its number — or to
NaN when it has none. -/
def jsOrRaw (x : RawField) (d : Rat) : JsNum :=
  if x.truthy then
    match x.toNumber with
    | some q => JsNum.num q
    | none => JsNum.nan
  else JsNum.num d

/-- `Math.max lo (Math.min hi x)` on JS numbers: NaN propagates. -/
def clampJs (lo hi : Rat) : JsNum → JsNum
  | JsNum.num q => JsNum.num (max lo (min hi q))
  | JsNum.nan => JsNum.nan

/-- The untyped `emotions` block: each category score is an arbitrary JSON
value. -/
structure RawEmotionsJson where
  joy : RawField := RawField.absent
  sadness : RawField := RawField.absent
  anger : RawField := RawField.absent
  fear : RawField := RawField.absent
  surprise : RawField := RawField.absent
  disgust : RawField := RawField.absent
  trust : RawField := RawField.absent
  anticipation : RawField := RawField.absent
deriving DecidableEq, Repr

/-- The untyped `psychologicalInsights` block. -/
structure RawInsightsJson where
  stressLevel : RawField := RawField.absent
  engagementLevel : RawField := RawField.absent
  cognitiveLoad : RawField := RawField.absent
  emotionalStability : RawField := RawField.absent
deriving DecidableEq, Repr

/-- The untyped `contextualFactors` block. -/
structure RawContextualJson where
  formality : RawField := RawField.absent
  urgency : RawField := RawField.absent
  clarity : RawField := RawField.absent
  empathy : RawField := RawField.absent
deriving DecidableEq, Repr

/-- The whole parsed provider JSON, untyped in every numeric position.
`emotions = none` models `result.emotions` being absent, falsy, or a
truthy non-object — `result.emotions || \x7b\x7d` followed by property reads
yields `undefined` for every category in all three cases, since property
access on a truthy non-object also returns `undefined` for these keys.
`sentiment = none` models any value that is not one of the three sentiment
strings — `includes` uses strict equality, so any non-string compares
unequal exactly like an absent field.  `recommendations = none` models any
non-array (the `Array.isArray` check). -/
structure RawEmotionResponseJson where
  sentiment : Option String := none
  sentimentScore : RawField := RawField.absent
  emotions : Option RawEmotionsJson := none
  dominantEmotion : Option String := none
  emotionalIntensity : RawField := RawField.absent
  confidence : RawField := RawField.absent
  psychologicalInsights : Option RawInsightsJson := none
  contextualFactors : Option RawContextualJson := none
  recommendations : Option (List String) := none
deriving DecidableEq, Repr

/-- The eight category intensities as the code actually produces them:
JS numbers, possibly NaN. -/
structure JsEmotions where
  joy : JsNum
  sadness : JsNum
  anger : JsNum
  fear : JsNum
  surprise : JsNum
  disgust : JsNum
  trust : JsNum
  anticipation : JsNum
deriving DecidableEq, Repr

/-- Psychological sub-scores as JS numbers. -/
structure JsInsights where
  stressLevel : JsNum
  engagementLevel : JsNum
  cognitiveLoad : JsNum
  emotionalStability : JsNum
deriving DecidableEq, Repr

/-- Contextual sub-scores as JS numbers. -/
structure JsContextual where
  formality : JsNum
  urgency : JsNum
  clarity : JsNum
  empathy : JsNum
deriving DecidableEq, Repr

/-- `EmotionAnalysisResult` with its numeric fields as JS numbers. -/
structure JsEmotionAnalysisResult where
  sentiment : String
  sentimentScore : JsNum
  emotions : JsEmotions
  dominantEmotion : String
  emotionalIntensity : JsNum
  confidence : JsNum
  psychologicalInsights : JsInsights
  contextualFactors : JsContextual
  recommendations : List String
deriving DecidableEq, Repr

/-- The `catch`-branch fallback (openai.ts lines 240-269) as JS numbers. -/
def neutralFallbackJson : JsEmotionAnalysisResult :=
  { sentiment := "neutral"
    sentimentScore := JsNum.num 0
    emotions :=
      { joy := JsNum.num (1 / 10), sadness := JsNum.num (1 / 10),
        anger := JsNum.num (1 / 10), fear := JsNum.num (1 / 10),
        surprise := JsNum.num (1 / 10), disgust := JsNum.num (1 / 10),
        trust := JsNum.num (2 / 10), anticipation := JsNum.num (2 / 10) }
    dominantEmotion := "neutral"
    emotionalIntensity := JsNum.num (3 / 10)
    confidence := JsNum.num (5 / 10)
    psychologicalInsights :=
      { stressLevel := JsNum.num (3 / 10), engagementLevel := JsNum.num (5 / 10),
        cognitiveLoad := JsNum.num (4 / 10), emotionalStability := JsNum.num (7 / 10) }
    contextualFactors :=
      { formality := JsNum.num (5 / 10), urgency := JsNum.num (3 / 10),
        clarity := JsNum.num (7 / 10), empathy := JsNum.num (5 / 10) }
    recommendations := ["Continue natural conversation", "Monitor for clearer emotional signals"] }

/-- Normalization of a parsed provider response (openai.ts lines 197-234)
over untyped field values: the same `||` defaults and clamps as
`normalizeEmotionResult`, but with NaN flowing through them as in
JavaScript. -/
def normalizeEmotionResultJson (result : RawEmotionResponseJson) : JsEmotionAnalysisResult :=
  let emotions := result.emotions.getD {}
  let insights := result.psychologicalInsights.getD {}
  let contextual := result.contextualFactors.getD {}
  { sentiment := normalizeSentiment result.sentiment
    sentimentScore := clampJs (-1) 1 (jsOrRaw result.sentimentScore 0)
    emotions :=
      { joy := clampJs 0 1 (jsOrRaw emotions.joy 0)
        sadness := clampJs 0 1 (jsOrRaw emotions.sadness 0)
        anger := clampJs 0 1 (jsOrRaw emotions.anger 0)
        fear := clampJs 0 1 (jsOrRaw emotions.fear 0)
        surprise := clampJs 0 1 (jsOrRaw emotions.surprise 0)
        disgust := clampJs 0 1 (jsOrRaw emotions.disgust 0)
        trust := clampJs 0 1 (jsOrRaw emotions.trust 0)
        anticipation := clampJs 0 1 (jsOrRaw emotions.anticipation 0) }
    dominantEmotion := jsOrStr result.dominantEmotion "neutral"
    emotionalIntensity := clampJs 0 1 (jsOrRaw result.emotionalIntensity (5 / 10))
    confidence := clampJs 0 1 (jsOrRaw result.confidence (8 / 10))
    psychologicalInsights :=
      { stressLevel := clampJs 0 1 (jsOrRaw insights.stressLevel (3 / 10))
        engagementLevel := clampJs 0 1 (jsOrRaw insights.engagementLevel (5 / 10))
        cognitiveLoad := clampJs 0 1 (jsOrRaw insights.cognitiveLoad (4 / 10))
        emotionalStability := clampJs 0 1 (jsOrRaw insights.emotionalStability (7 / 10)) }
    contextualFactors :=
      { formality := clampJs 0 1 (jsOrRaw contextual.formality (5 / 10))
        urgency := clampJs 0 1 (jsOrRaw contextual.urgency (3 / 10))
        clarity := clampJs 0 1 (jsOrRaw contextual.clarity (7 / 10))
        empathy := clampJs 0 1 (jsOrRaw contextual.empathy (5 / 10)) }
    recommendations :=
      match result.recommendations with
      | some l => l.take 3
      | none => ["Continue natural conversation", "Maintain current emotional tone"] }

/-- `OpenAIService.analyzeEmotion` over untyped provider JSON. -/
def analyzeEmotionJson (provider : Except Unit RawEmotionResponseJson) :
    JsEmotionAnalysisResult :=
  match provider with
  | Except.error _ => neutralFallbackJson
  | Except.ok result => normalizeEmotionResultJson result

/-- `lo ≤ v ∧ v ≤ hi` as JavaScript evaluates it on a JS number: false for
NaN. -/
def jsInBounds (lo hi : Rat) : JsNum → Prop
  | JsNum.num q => lo ≤ q ∧ q ≤ hi
  | JsNum.nan => False

/-- Per-field guarantee of the clamping pipeline: the clamped value lies
within bounds, or it is NaN and the provider supplied a truthy non-numeric
value in that position. -/
def clampedFieldOk (lo hi : Rat) (raw : RawField) (v : JsNum) : Prop :=
  jsInBounds lo hi v ∨ (v = JsNum.nan ∧ raw.truthy = true ∧ raw.toNumber = none)

/-- The provider response whose `emotions.joy` carries a truthy non-numeric
JSON value (for instance the string "very high"); every other field is
absent. -/
def badEmotionResponse : RawEmotionResponseJson :=
  { emotions := some { joy := { truthy := true, toNumber := none } } }

/-! ## Persistence records and the two-speed flow

`storage` is external; it is modelled as an explicit list of records whose
serial ids are list positions.  Fields that the code fills from wall-clock
time or `Math.random()` (timestamps, `processingTime`, the random
`speakerId`) are omitted from the records: no claim mentions them. -/

/-- A persisted conversation row (`conversations` table), one Turn. -/
structure StoredConversation where
  id : Nat
  sessionId : Nat
  type : String
  content : String
  confidence : Option Rat
  emotion : Option String
  modelUsed : Option String
deriving DecidableEq, Repr

/-- A persisted emotion-analysis row (`emotionAnalysis` table). -/
structure StoredEmotionAnalysis where
  conversationId : Nat
  sentiment : String
  sentimentScore : Rat
  emotions : Emotions
  dominantEmotion : String
  emotionalIntensity : Rat
  confidence : Rat
  psychologicalInsights : PsychologicalInsights
  contextualFactors : ContextualFactors
  recommendations : List String
deriving DecidableEq, Repr

/-- `AIResponse` from openai.ts: generated text plus model tag. -/
structure AIResponse where
  content : String
  model : String
deriving DecidableEq, Repr

/-- Outbound event kinds pushed over the connection (the `action` tags the
server sends; see websocket.ts and part_002/part_003). -/
inductive OutEvent where
  | processing
  | transcriptReady
  | emotionAnalysisComplete
  | aiResponseReady
  | ultraFastTranscription
  | errorEvent
deriving DecidableEq, Repr

/-- Output of a run of (part of) the pipeline: the events pushed to the
connection and the resulting storage contents. -/
structure FlowOutcome where
  events : List OutEvent
  conversations : List StoredConversation
  emotionRecords : List StoredEmotionAnalysis
deriving DecidableEq, Repr

/-- `FastVoiceProcessor.processBackgroundAnalysis` (part_002 lines 360-467)
with the provider outcomes as parameters.  Steps, in source order: run
`analyzeEmotion` (total — a failing scoring provider yields the neutral
fallback); persist the user Turn; call the generation provider, whose
failure is caught by the outer `catch` (nothing further is persisted or
emitted, the user Turn remains); persist the assistant Turn; attach an
emotion record to the latest conversation of the session; finally, when a
websocket callback was supplied, emit `emotion_analysis_complete` then
`ai_response_ready`. -/
def processBackgroundAnalysis (hasCallback : Bool) (sessionId : Nat)
    (text : String) (confidence : Rat)
    (emotionProvider : Except Unit RawEmotionResponse)
    (genProvider : Except Unit AIResponse)
    (conversations0 : List StoredConversation)
    (emotionRecords0 : List StoredEmotionAnalysis) : FlowOutcome :=
  let emotionResult := analyzeEmotion emotionProvider
  let userConv : StoredConversation :=
    { id := conversations0.length, sessionId := sessionId, type := "user",
      content := text, confidence := some confidence,
      emotion := some emotionResult.dominantEmotion, modelUsed := some "whisper-1" }
  let conversations1 := conversations0 ++ [userConv]
  match genProvider with
  | Except.error _ =>
    { events := [], conversations := conversations1, emotionRecords := emotionRecords0 }
  | Except.ok aiResponse =>
    let aiConv : StoredConversation :=
      { id := conversations1.length, sessionId := sessionId, type := "ai",
        content := aiResponse.content, confidence := some 1,
        emotion := some "helpful", modelUsed := some aiResponse.model }
    let conversations2 := conversations1 ++ [aiConv]
    let sessionConvs := conversations2.filter (fun c => c.sessionId = sessionId)
    let emotionRecords1 :=
      match sessionConvs.getLast? with
      | some latest =>
        emotionRecords0 ++
          [{ conversationId := latest.id
             sentiment := emotionResult.sentiment
             sentimentScore := emotionResult.sentimentScore
             emotions := emotionResult.emotions
             dominantEmotion := emotionResult.dominantEmotion
             emotionalIntensity := emotionResult.emotionalIntensity
             confidence := emotionResult.confidence
             psychologicalInsights := emotionResult.psychologicalInsights
             contextualFactors := emotionResult.contextualFactors
             recommendations := emotionResult.recommendations }]
      | none => emotionRecords0
    { events :=
        if hasCallback then [OutEvent.emotionAnalysisComplete, OutEvent.aiResponseReady] else []
      conversations := conversations2
      emotionRecords := emotionRecords1 }

/-- `VoiceWebSocketServer.handleAudioData` (websocket.ts lines 164-248) for
a single inbound audio message, with the provider outcomes as parameters.

Source order: with no active session an error event is sent and nothing
else happens.  Otherwise a `processing` acknowledgment is sent, the message
is handed to the ultra-fast aggregator (one fragment; the debounce timer
fires 200 ms later — `ultraTimerFires` says whether it fires before any
further fragment arrives), then `fastVoiceProcessor.processVoiceForRealtime`
transcribes the same buffer.  A transcription failure is caught and sent as
an error event (the ultra-fast flush fails on the same audio and swallows
the error).  On success `transcript_ready` is emitted and TWO background
analyses run: one spawned inside `processVoiceForRealtime` (part_002 line
345, no callback) and one spawned by `handleAudioData` itself (websocket.ts
line 223, with callback); the ultra-fast flush additionally transcribes and
persists its own user record when the segment is at least 512 bytes.

The concurrent branches are serialized here in a fixed order (internal
background run, callback background run, ultra-fast flush); the claims
proved about this function (membership and counts of events and records)
do not depend on that serialization.  Event ORDER is settled separately by
the nondeterministic machine further below. -/
def handleAudioDataFlow (activeSession : Option Nat) (audioBuffer : Buf)
    (transcriptionProvider : Except Unit String)
    (emotionProvider : Except Unit RawEmotionResponse)
    (genProvider : Except Unit AIResponse)
    (ultraTimerFires : Bool)
    (conversations0 : List StoredConversation)
    (emotionRecords0 : List StoredEmotionAnalysis) : FlowOutcome :=
  match activeSession with
  | none =>
    { events := [OutEvent.errorEvent], conversations := conversations0,
      emotionRecords := emotionRecords0 }
  | some sessionId =>
    match transcribeAudio audioBuffer transcriptionProvider with
    | Except.error _ =>
      { events := [OutEvent.processing, OutEvent.errorEvent],
        conversations := conversations0, emotionRecords := emotionRecords0 }
    | Except.ok tr =>
      let bg1 := processBackgroundAnalysis false sessionId tr.text tr.confidence
        emotionProvider genProvider conversations0 emotionRecords0
      let bg2 := processBackgroundAnalysis true sessionId tr.text tr.confidence
        emotionProvider genProvider bg1.conversations bg1.emotionRecords
      let ultra :=
        if ultraTimerFires ∧ ¬ audioBuffer.length < 512 then
          match transcribeAudio audioBuffer transcriptionProvider with
          | Except.ok tu =>
            ([OutEvent.ultraFastTranscription],
             bg2.conversations ++
               [{ id := bg2.conversations.length, sessionId := sessionId,
                  type := "user", content := tu.text,
                  confidence := some tu.confidence, emotion := some "unknown",
                  modelUsed := some "whisper-1" }])
          | Except.error _ => ([], bg2.conversations)
        else ([], bg2.conversations)
      { events := [OutEvent.processing, OutEvent.transcriptReady] ++ bg2.events ++ ultra.1
        conversations := ultra.2
        emotionRecords := bg2.emotionRecords }

/-! ## Request deduplicator (`VoiceProcessor.processVoiceMessage`)

`processingQueue` is a map from message id (`sessionId + '-' + Date.now()`)
to the in-flight promise.  A promise is modelled by a serial id; equal
promise ids mean the very same promise object, hence the identical eventual
result.  Each registered execution runs `_processVoiceInternal`, which calls
the transcription provider exactly once — `transcriptionCalls` counts those
executions. -/

/-- The deduplicator state: the `processingQueue` map as an association
list, a fresh-promise counter, and the number of pipeline executions
started (= transcription provider invocations). -/
structure ProcessingQueueState where
  queue : List (String × Nat)
  nextPromiseId : Nat
  transcriptionCalls : Nat
deriving DecidableEq, Repr

/-- `VoiceProcessor.processVoiceMessage` (voiceProcessor.ts lines 25-47):
if the key is already registered return the existing promise, otherwise
register a fresh execution. Returns the new state and the promise the
caller awaits. -/
def processVoiceMessage (s : ProcessingQueueState) (messageId : String) :
    ProcessingQueueState × Nat :=
  match s.queue.lookup messageId with
  | some p => (s, p)
  | none =>
    let p := s.nextPromiseId
    ({ queue := (messageId, p) :: s.queue, nextPromiseId := p + 1,
       transcriptionCalls := s.transcriptionCalls + 1 }, p)

/-- The `finally` block of `processVoiceMessage`: once the execution
settles, its registration is removed. -/
def settleVoiceMessage (s : ProcessingQueueState) (messageId : String) :
    ProcessingQueueState :=
  { s with queue := s.queue.filter (fun kv => kv.1 ≠ messageId) }

/-! ## Connection registry and idle eviction (`VoiceWebSocketServer`)

`clients` is the registry map; `startHealthCheck` runs every 30 s and calls
`handleDisconnection` for every client whose `lastActivity` is more than
five minutes old, which in turn ends the bound session (marks it inactive)
and unregisters the client.  Times are milliseconds. -/

/-- A `voiceSessions` row as far as eviction needs it. -/
structure VoiceSession where
  id : Nat
  isActive : Bool
deriving DecidableEq, Repr

/-- A registry entry (`ClientConnection` in websocket.ts). -/
structure ClientConn where
  id : String
  sessionId : Option Nat
  lastActivity : Nat
deriving DecidableEq, Repr

/-- Registry plus session store. -/
structure ServerState where
  clients : List ClientConn
  sessions : List VoiceSession
deriving DecidableEq, Repr

/-- The five-minute stale threshold of `startHealthCheck` (ms). -/
def staleThreshold : Nat := 5 * 60 * 1000

/-- `storage.updateVoiceSession(sid, \x7bisActive: false, ...\x7d)` as issued by
`endVoiceSession`. -/
def endVoiceSessionStore (sessions : List VoiceSession) (sid : Nat) :
    List VoiceSession :=
  sessions.map (fun s => if s.id = sid then { s with isActive := false } else s)

/-- `VoiceWebSocketServer.endVoiceSession` (websocket.ts lines 279-310):
looks the client up, marks its bound session inactive in storage and clears
the client's `sessionId`. -/
def endVoiceSession (st : ServerState) (clientId : String) : ServerState :=
  match st.clients.find? (fun c => c.id = clientId) with
  | none => st
  | some c =>
    match c.sessionId with
    | none => st
    | some sid =>
      { clients := st.clients.map
          (fun x => if x.id = clientId then { x with sessionId := none } else x)
        sessions := endVoiceSessionStore st.sessions sid }

/-- `VoiceWebSocketServer.handleDisconnection` (websocket.ts lines 453-464):
if the client is registered, end its active session (if any) and delete it
from the registry. -/
def handleDisconnection (st : ServerState) (clientId : String) : ServerState :=
  match st.clients.find? (fun c => c.id = clientId) with
  | none => st
  | some c =>
    let st1 := if c.sessionId.isSome then endVoiceSession st clientId else st
    { clients := st1.clients.filter (fun x => x.id ≠ clientId)
      sessions := st1.sessions }

/-- The loop body of the `startHealthCheck` sweep (websocket.ts lines
476-481): disconnect the snapshot entry when it has been idle for strictly
longer than the threshold. -/
def sweepStep (now : Nat) (acc : ServerState) (c : ClientConn) : ServerState :=
  if staleThreshold < now - c.lastActivity then handleDisconnection acc c.id else acc

/-- One sweep of `startHealthCheck` (websocket.ts lines 470-486): iterate
over a snapshot of the registry and disconnect every client idle for
strictly longer than the threshold. -/
def startHealthCheckSweep (st : ServerState) (now : Nat) : ServerState :=
  st.clients.foldl (sweepStep now) st

/-! ## Event ordering for one request (`handleAudioData` + background path)

A small-step machine over one pipeline request, with one step per
suspension point of the source; provider latencies are arbitrary, so WHEN
an await resolves is the scheduler's nondeterministic choice of when to
take the corresponding step.  Three logical tasks interleave:

* the fast path of `handleAudioData`: emit `processing`, hand the fragment
  to the ultra-fast aggregator (starting its debounce timer), await the
  fast transcription, emit `transcript_ready`, then spawn the callback
  background task (websocket.ts lines 173-235 — the spawn is strictly after
  the `transcript_ready` send);
* the background task `processBackgroundAnalysis` with callback: await
  scoring + history, persist the user turn, await generation, persist the
  assistant turn and emotion record, emit `emotion_analysis_complete`, emit
  `ai_response_ready` (part_002 lines 360-467).  The second background run
  spawned inside `processVoiceForRealtime` has no callback and emits no
  events, so it is omitted from the event machine;
* the ultra-fast timer: fire, await its transcription, emit
  `ultra_fast_transcription` (part_003 lines 37-100).

`trace` is the sequence of events pushed to the connection. -/

/-- One request's interleaving state.  `fastPC`: 0 initial, 1 after
`processing` was emitted and the ultra timer set, 2 after the fast
transcription resolved, 3 after `transcript_ready` was emitted, 4 after the
background task was spawned.  `bgPC`: 0 not spawned, 1 awaiting scoring,
2 awaiting generation, 3 persisted, 4 after `emotion_analysis_complete`,
5 after `ai_response_ready`.  `ultraPC`: 0 no timer, 1 timer pending,
2 fired and transcribed, 3 after `ultra_fast_transcription`. -/
structure PipelineRunState where
  fastPC : Nat
  bgPC : Nat
  ultraPC : Nat
  trace : List OutEvent
deriving DecidableEq, Repr

/-- One scheduler step of the pipeline request. -/
inductive PipelineStep : PipelineRunState → PipelineRunState → Prop where
  | emitProcessing (s : PipelineRunState) (h : s.fastPC = 0) :
      PipelineStep s
        { s with fastPC := 1, ultraPC := 1, trace := s.trace ++ [OutEvent.processing] }
  | fastTranscribed (s : PipelineRunState) (h : s.fastPC = 1) :
      PipelineStep s { s with fastPC := 2 }
  | emitTranscriptReady (s : PipelineRunState) (h : s.fastPC = 2) :
      PipelineStep s
        { s with fastPC := 3, trace := s.trace ++ [OutEvent.transcriptReady] }
  | spawnBackground (s : PipelineRunState) (h : s.fastPC = 3) :
      PipelineStep s { s with fastPC := 4, bgPC := 1 }
  | bgAnalyzed (s : PipelineRunState) (h : s.bgPC = 1) :
      PipelineStep s { s with bgPC := 2 }
  | bgGenerated (s : PipelineRunState) (h : s.bgPC = 2) :
      PipelineStep s { s with bgPC := 3 }
  | emitEmotionComplete (s : PipelineRunState) (h : s.bgPC = 3) :
      PipelineStep s
        { s with bgPC := 4, trace := s.trace ++ [OutEvent.emotionAnalysisComplete] }
  | emitAiReady (s : PipelineRunState) (h : s.bgPC = 4) :
      PipelineStep s
        { s with bgPC := 5, trace := s.trace ++ [OutEvent.aiResponseReady] }
  | ultraFired (s : PipelineRunState) (h : s.ultraPC = 1) :
      PipelineStep s { s with ultraPC := 2 }
  | emitUltra (s : PipelineRunState) (h : s.ultraPC = 2) :
      PipelineStep s
        { s with ultraPC := 3, trace := s.trace ++ [OutEvent.ultraFastTranscription] }

/-- The request before anything ran. -/
def initPipelineState : PipelineRunState :=
  { fastPC := 0, bgPC := 0, ultraPC := 0, trace := [] }

/-- States reachable under some interleaving of provider latencies. -/
inductive PipelineReachable : PipelineRunState → Prop where
  | init : PipelineReachable initPipelineState
  | step {s t : PipelineRunState} :
      PipelineReachable s → PipelineStep s t → PipelineReachable t

/-- The two background-path completion events of a request. -/
def isBackgroundEvt : OutEvent → Bool
  | OutEvent.emotionAnalysisComplete => true
  | OutEvent.aiResponseReady => true
  | _ => false

/-- Left-to-right scan: `seen` records whether `transcript_ready` has
already appeared; a background-path event before it falsifies the scan. -/
def fastBeforeBgAux (seen : Bool) : List OutEvent → Bool
  | [] => true
  | e :: rest =>
    if isBackgroundEvt e && !seen then false
    else fastBeforeBgAux (seen || e == OutEvent.transcriptReady) rest

/-- Every background-path event in the trace is strictly preceded by
`transcript_ready`. -/
def fastBeforeBg (l : List OutEvent) : Bool :=
  fastBeforeBgAux false l

lemma fastBeforeBgAux_append_ok (l : List OutEvent) (e : OutEvent) (seen : Bool)
    (hl : fastBeforeBgAux seen l = true) (he : isBackgroundEvt e = false) :
    fastBeforeBgAux seen (l ++ [e]) = true := by
  induction l generalizing seen with
  | nil => simp [fastBeforeBgAux, he]
  | cons x xs ih =>
    simp only [List.cons_append, fastBeforeBgAux] at hl ⊢
    by_cases hx : (isBackgroundEvt x && !seen) = true
    · rw [if_pos hx] at hl
      exact absurd hl (by simp)
    · rw [if_neg hx] at hl ⊢
      exact ih _ hl

lemma fastBeforeBgAux_append_seen (l : List OutEvent) (e : OutEvent) (seen : Bool)
    (hl : fastBeforeBgAux seen l = true)
    (hs : seen = true ∨ OutEvent.transcriptReady ∈ l) :
    fastBeforeBgAux seen (l ++ [e]) = true := by
  induction l generalizing seen with
  | nil =>
    rcases hs with hs | hs
    · subst hs
      simp [fastBeforeBgAux]
    · simp at hs
  | cons x xs ih =>
    simp only [List.cons_append, fastBeforeBgAux] at hl ⊢
    by_cases hx : (isBackgroundEvt x && !seen) = true
    · rw [if_pos hx] at hl
      exact absurd hl (by simp)
    · rw [if_neg hx] at hl ⊢
      apply ih _ hl
      rcases hs with hs | hs
      · subst hs
        left
        simp
      · rcases List.mem_cons.mp hs with hx1 | hx2
        · subst hx1
          left
          simp
        · right
          exact hx2

lemma fastBeforeBgAux_split (l l1 l2 : List OutEvent) (e : OutEvent) (seen : Bool)
    (hl : fastBeforeBgAux seen l = true) (hsplit : l = l1 ++ e :: l2)
    (he : isBackgroundEvt e = true) :
    seen = true ∨ OutEvent.transcriptReady ∈ l1 := by
  subst hsplit
  induction l1 generalizing seen with
  | nil =>
    simp only [List.nil_append, fastBeforeBgAux] at hl
    by_cases hx : (isBackgroundEvt e && !seen) = true
    · rw [if_pos hx] at hl
      exact absurd hl (by simp)
    · left
      simp only [he, Bool.true_and, Bool.not_eq_true'] at hx
      simpa using hx
  | cons x xs ih =>
    simp only [List.cons_append, fastBeforeBgAux] at hl
    by_cases hx : (isBackgroundEvt x && !seen) = true
    · rw [if_pos hx] at hl
      exact absurd hl (by simp)
    · rw [if_neg hx] at hl
      rcases ih _ hl with hs | hmem
      · rcases (by simpa using hs : seen = true ∨ x = OutEvent.transcriptReady) with h | h
        · exact Or.inl h
        · subst h
          right
          simp
      · right
        exact List.mem_cons_of_mem _ hmem

/-- Invariant carried through every interleaving. -/
def pipelineInv (s : PipelineRunState) : Prop :=
  fastBeforeBg s.trace = true ∧
  (3 ≤ s.fastPC → OutEvent.transcriptReady ∈ s.trace) ∧
  (1 ≤ s.bgPC → OutEvent.transcriptReady ∈ s.trace)

lemma pipelineInv_init : pipelineInv initPipelineState := by
  refine ⟨rfl, ?_, ?_⟩ <;> intro h <;> simp [initPipelineState] at h

lemma pipelineInv_step {s t : PipelineRunState}
    (hs : pipelineInv s) (hstep : PipelineStep s t) : pipelineInv t := by
  obtain ⟨h1, h2, h3⟩ := hs
  cases hstep with
  | emitProcessing h =>
    refine ⟨fastBeforeBgAux_append_ok _ _ _ h1 rfl, ?_, ?_⟩
    · intro hf
      exact absurd (show (3 : Nat) ≤ 1 from hf) (by decide)
    · intro hb
      exact List.mem_append_left _ (h3 hb)
  | fastTranscribed h =>
    exact ⟨h1, fun hf => absurd (show (3 : Nat) ≤ 2 from hf) (by decide), h3⟩
  | emitTranscriptReady h =>
    refine ⟨fastBeforeBgAux_append_ok _ _ _ h1 rfl, ?_, ?_⟩
    · intro _
      exact List.mem_append_right _ (List.mem_singleton.mpr rfl)
    · intro hb
      exact List.mem_append_left _ (h3 hb)
  | spawnBackground h =>
    exact ⟨h1, fun _ => h2 (by omega), fun _ => h2 (by omega)⟩
  | bgAnalyzed h =>
    exact ⟨h1, h2, fun _ => h3 (by omega)⟩
  | bgGenerated h =>
    exact ⟨h1, h2, fun _ => h3 (by omega)⟩
  | emitEmotionComplete h =>
    have htr : OutEvent.transcriptReady ∈ s.trace := h3 (by omega)
    exact ⟨fastBeforeBgAux_append_seen _ _ _ h1 (Or.inr htr),
      fun hf => List.mem_append_left _ (h2 hf),
      fun _ => List.mem_append_left _ htr⟩
  | emitAiReady h =>
    have htr : OutEvent.transcriptReady ∈ s.trace := h3 (by omega)
    exact ⟨fastBeforeBgAux_append_seen _ _ _ h1 (Or.inr htr),
      fun hf => List.mem_append_left _ (h2 hf),
      fun _ => List.mem_append_left _ htr⟩
  | ultraFired h =>
    exact ⟨h1, h2, h3⟩
  | emitUltra h =>
    refine ⟨fastBeforeBgAux_append_ok _ _ _ h1 rfl, ?_, ?_⟩
    · intro hf
      exact List.mem_append_left _ (h2 hf)
    · intro hb
      exact List.mem_append_left _ (h3 hb)

lemma pipelineInv_reachable {s : PipelineRunState}
    (h : PipelineReachable s) : pipelineInv s := by
  induction h with
  | init => exact pipelineInv_init
  | step _ hstep ih => exact pipelineInv_step ih hstep

/-! ## Claim theorems -/

/-- C6: for every inbound message, a payload larger than 100 bytes is
routed to audio-fragment handling without attempting to parse it as a
control message (the routing decision is independent of the parse
function); a payload of at most 100 bytes is first parsed as a structured
control message, and when that parse fails it is routed to audio-fragment
handling rather than dropped. -/
theorem claim_C6_message_routing (parse parse2 : Buf → Option VoiceMessage) (data : Buf) :
    (100 < data.length →
      handleMessage parse data = RouteDecision.audio ∧
      handleMessage parse data = handleMessage parse2 data) ∧
    (data.length ≤ 100 →
      (∀ m, parse data = some m → handleMessage parse data = RouteDecision.control m) ∧
      (parse data = none → handleMessage parse data = RouteDecision.audio)) := by
  constructor
  · intro h
    constructor <;> simp [handleMessage, h]
  · intro h
    have hnot : ¬ 100 < data.length := by omega
    constructor
    · intro m hm
      simp [handleMessage, hnot, hm]
    · intro hm
      simp [handleMessage, hnot, hm]

/-- C6 witness: a 150-byte payload is routed to audio handling whatever the
parse function would say, and a small unparseable payload still reaches the
audio path. -/
theorem claim_C6_message_routing_witness :
    (handleMessage (fun _ => none) (List.replicate 150 0) = RouteDecision.audio ∧
      handleMessage (fun _ => none) (List.replicate 150 0) =
        handleMessage (fun _ => some { type := "control", data := "ping" })
          (List.replicate 150 0)) ∧
    handleMessage (fun _ => none) [1, 2, 3] = RouteDecision.audio := by
  refine ⟨(claim_C6_message_routing (fun _ => none)
    (fun _ => some { type := "control", data := "ping" })
    (List.replicate 150 0)).1 (by simp), ?_⟩
  exact ((claim_C6_message_routing (fun _ => none) (fun _ => none) [1, 2, 3]).2
    (by simp)).2 rfl

/-- C7: all fragments ingested on one connection inside a single debounce
window leave exactly one pending debounce timer (every ingest cancels the
previous one), and the flush that timer performs hands the transcription
provider exactly the byte-wise concatenation of the fragments in arrival
order — never reordered or split non-contiguously — in one transcription
call. -/
theorem claim_C7_debounce_concat (cs : List Buf) (hne : cs ≠ [])
    (hfloor : 512 ≤ cs.flatten.length) :
    pendingTimers (runWindow cs) = 1 ∧
    (processAccumulatedAudioUltraFast (runWindow cs)).flushed = some cs.flatten ∧
    (processAccumulatedAudioUltraFast (runWindow cs)).transcriptionCalls = 1 := by
  have hchunks := runWindow_chunks cs
  have hpend := runWindow_pending cs hne
  have hempty : (runWindow cs).chunks.isEmpty = false := by
    rw [hchunks]
    exact List.isEmpty_eq_false.mpr hne
  have hlt : ¬ (List.map List.length cs).sum < 512 := by
    rw [← List.length_flatten]
    omega
  refine ⟨by simp [pendingTimers, hpend], ?_, ?_⟩ <;>
    simp [processAccumulatedAudioUltraFast, hempty, hchunks, hlt, hne]

set_option maxRecDepth 10000 in
/-- C7 witness: a single 512-byte fragment window flushes once, with the
concatenation equal to that fragment. -/
theorem claim_C7_debounce_concat_witness :
    pendingTimers (runWindow [List.replicate 512 0]) = 1 ∧
    (processAccumulatedAudioUltraFast (runWindow [List.replicate 512 0])).flushed =
      some ([List.replicate 512 0] : List Buf).flatten ∧
    (processAccumulatedAudioUltraFast (runWindow [List.replicate 512 0])).transcriptionCalls = 1 :=
  claim_C7_debounce_concat [List.replicate 512 0] (by simp)
    (by simp [List.flatten_cons, List.flatten_nil])

/-- C8 counterexample: at a concrete below-floor flush (a single 100-byte
fragment, combined length 100 < 512) the accumulated segment is NOT
discarded — `processAccumulatedAudioUltraFast` returns early without
clearing the buffer, so the claim that the segment is discarded fails. -/
theorem claim_C8_counterexample :
    ([List.replicate 100 0] : List Buf).flatten.length < 512 ∧
    ¬ (processAccumulatedAudioUltraFast
        { chunks := [List.replicate 100 0], pendingTimer := true }).state.chunks = [] := by
  constructor
  · simp
  · simp [processAccumulatedAudioUltraFast]

/-- C8 (amended): a flush whose accumulated segment is below the 512-byte
minimum floor creates no PipelineRequest — the transcription provider is
not invoked at that flush — and the segment is retained unchanged in the
buffer for further accumulation rather than discarded. -/
theorem claim_C8_below_floor (s : UltraState) (hne : s.chunks ≠ [])
    (hsmall : s.chunks.flatten.length < 512) :
    (processAccumulatedAudioUltraFast s).flushed = none ∧
    (processAccumulatedAudioUltraFast s).transcriptionCalls = 0 ∧
    (processAccumulatedAudioUltraFast s).state.chunks = s.chunks := by
  have hempty : s.chunks.isEmpty = false := List.isEmpty_eq_false.mpr hne
  have hsmall2 : (List.map List.length s.chunks).sum < 512 := by
    rw [← List.length_flatten]
    exact hsmall
  refine ⟨?_, ?_, ?_⟩ <;> simp [processAccumulatedAudioUltraFast, hempty, hsmall2]

/-- C8 witness: the amended statement at the concrete 100-byte fragment. -/
theorem claim_C8_below_floor_witness :
    (processAccumulatedAudioUltraFast
        { chunks := [List.replicate 100 0], pendingTimer := true }).flushed = none ∧
    (processAccumulatedAudioUltraFast
        { chunks := [List.replicate 100 0], pendingTimer := true }).transcriptionCalls = 0 ∧
    (processAccumulatedAudioUltraFast
        { chunks := [List.replicate 100 0], pendingTimer := true }).state.chunks =
      [List.replicate 100 0] :=
  claim_C8_below_floor { chunks := [List.replicate 100 0], pendingTimer := true }
    (by simp) (by simp)

/-- C1: two submissions of `processVoiceMessage` carrying the same
deduplication key while the first is still executing (its registration not
yet settled) share one pipeline execution: the second submission returns
the very promise of the first (hence both observers await the identical
result object), the state is unchanged by the second submission, and the
transcription provider is invoked exactly once across both. -/
theorem claim_C1_dedup (s : ProcessingQueueState) (messageId : String)
    (hfree : s.queue.lookup messageId = none) :
    (processVoiceMessage (processVoiceMessage s messageId).1 messageId).2 =
      (processVoiceMessage s messageId).2 ∧
    (processVoiceMessage (processVoiceMessage s messageId).1 messageId).1 =
      (processVoiceMessage s messageId).1 ∧
    (processVoiceMessage s messageId).1.transcriptionCalls = s.transcriptionCalls + 1 := by
  simp [processVoiceMessage, hfree, List.lookup]

/-- C1 witness: a fresh deduplicator with key "7-1700000000000". -/
theorem claim_C1_dedup_witness :
    (processVoiceMessage
      (processVoiceMessage
        { queue := [], nextPromiseId := 0, transcriptionCalls := 0 } "7-1700000000000").1
      "7-1700000000000").2 =
      (processVoiceMessage
        { queue := [], nextPromiseId := 0, transcriptionCalls := 0 } "7-1700000000000").2 ∧
    (processVoiceMessage
      (processVoiceMessage
        { queue := [], nextPromiseId := 0, transcriptionCalls := 0 } "7-1700000000000").1
      "7-1700000000000").1 =
      (processVoiceMessage
        { queue := [], nextPromiseId := 0, transcriptionCalls := 0 } "7-1700000000000").1 ∧
    (processVoiceMessage
      { queue := [], nextPromiseId := 0, transcriptionCalls := 0 } "7-1700000000000").1.transcriptionCalls =
      0 + 1 :=
  claim_C1_dedup { queue := [], nextPromiseId := 0, transcriptionCalls := 0 }
    "7-1700000000000" rfl

lemma normalizeSentiment_mem (s : Option String) :
    normalizeSentiment s = "positive" ∨ normalizeSentiment s = "negative" ∨
      normalizeSentiment s = "neutral" := by
  cases s with
  | none => right; right; rfl
  | some v =>
    by_cases hv : v = "positive" ∨ v = "negative" ∨ v = "neutral"
    · simp [normalizeSentiment, hv]
    · simp [normalizeSentiment, hv]

lemma clampJs_jsOrRaw_ok (lo hi d : Rat) (h : lo ≤ hi) (x : RawField) :
    clampedFieldOk lo hi x (clampJs lo hi (jsOrRaw x d)) := by
  unfold jsOrRaw
  by_cases ht : x.truthy = true
  · rw [if_pos ht]
    cases hn : x.toNumber with
    | none =>
      right
      exact ⟨rfl, ht, hn⟩
    | some q =>
      left
      exact ⟨le_max_left _ _, max_le h (min_le_left _ _)⟩
  · rw [if_neg ht]
    left
    exact ⟨le_max_left _ _, max_le h (min_le_left _ _)⟩

/-- C10 counterexample: on the provider response whose `emotions.joy` holds
a truthy non-numeric JSON value, the normalized joy intensity is NaN —
`||` keeps the truthy value and `Math.min`/`Math.max` propagate its NaN
coercion — and NaN fails the claimed bound `0 ≤ joy ≤ 1` (NaN comparisons
are false in JavaScript), so the unconditional bounds claim is false. -/
theorem claim_C10_counterexample :
    (analyzeEmotionJson (Except.ok badEmotionResponse)).emotions.joy = JsNum.nan ∧
    ¬ jsInBounds 0 1 ((analyzeEmotionJson (Except.ok badEmotionResponse)).emotions.joy) := by
  constructor
  · rfl
  · intro h
    exact h

/-- C10 (amended): every result of `analyzeEmotion` — over arbitrary
untyped provider JSON — has a sentiment among positive/negative/neutral
and at most 3 recommendations; each claimed numeric field (sentiment
score, the eight category intensities, the four psychological insights,
the four contextual factors) either lies within its claimed interval
([-1,1] for the sentiment score, [0,1] for the rest) or is NaN, the
latter exactly when the provider supplied a truthy non-numeric value in
that position; and the failure fallback satisfies all the original strict
bounds. -/
theorem claim_C10_emotion_bounds_amended (provider : Except Unit RawEmotionResponseJson) :
    ((analyzeEmotionJson provider).sentiment = "positive" ∨
      (analyzeEmotionJson provider).sentiment = "negative" ∨
      (analyzeEmotionJson provider).sentiment = "neutral") ∧
    (analyzeEmotionJson provider).recommendations.length ≤ 3 ∧
    (∀ resp, provider = Except.ok resp →
      clampedFieldOk (-1) 1 resp.sentimentScore
        (analyzeEmotionJson provider).sentimentScore ∧
      clampedFieldOk 0 1 (resp.emotions.getD {}).joy
        (analyzeEmotionJson provider).emotions.joy ∧
      clampedFieldOk 0 1 (resp.emotions.getD {}).sadness
        (analyzeEmotionJson provider).emotions.sadness ∧
      clampedFieldOk 0 1 (resp.emotions.getD {}).anger
        (analyzeEmotionJson provider).emotions.anger ∧
      clampedFieldOk 0 1 (resp.emotions.getD {}).fear
        (analyzeEmotionJson provider).emotions.fear ∧
      clampedFieldOk 0 1 (resp.emotions.getD {}).surprise
        (analyzeEmotionJson provider).emotions.surprise ∧
      clampedFieldOk 0 1 (resp.emotions.getD {}).disgust
        (analyzeEmotionJson provider).emotions.disgust ∧
      clampedFieldOk 0 1 (resp.emotions.getD {}).trust
        (analyzeEmotionJson provider).emotions.trust ∧
      clampedFieldOk 0 1 (resp.emotions.getD {}).anticipation
        (analyzeEmotionJson provider).emotions.anticipation ∧
      clampedFieldOk 0 1 (resp.psychologicalInsights.getD {}).stressLevel
        (analyzeEmotionJson provider).psychologicalInsights.stressLevel ∧
      clampedFieldOk 0 1 (resp.psychologicalInsights.getD {}).engagementLevel
        (analyzeEmotionJson provider).psychologicalInsights.engagementLevel ∧
      clampedFieldOk 0 1 (resp.psychologicalInsights.getD {}).cognitiveLoad
        (analyzeEmotionJson provider).psychologicalInsights.cognitiveLoad ∧
      clampedFieldOk 0 1 (resp.psychologicalInsights.getD {}).emotionalStability
        (analyzeEmotionJson provider).psychologicalInsights.emotionalStability ∧
      clampedFieldOk 0 1 (resp.contextualFactors.getD {}).formality
        (analyzeEmotionJson provider).contextualFactors.formality ∧
      clampedFieldOk 0 1 (resp.contextualFactors.getD {}).urgency
        (analyzeEmotionJson provider).contextualFactors.urgency ∧
      clampedFieldOk 0 1 (resp.contextualFactors.getD {}).clarity
        (analyzeEmotionJson provider).contextualFactors.clarity ∧
      clampedFieldOk 0 1 (resp.contextualFactors.getD {}).empathy
        (analyzeEmotionJson provider).contextualFactors.empathy) ∧
    (provider = Except.error () →
      jsInBounds (-1) 1 (analyzeEmotionJson provider).sentimentScore ∧
      jsInBounds 0 1 (analyzeEmotionJson provider).emotions.joy ∧
      jsInBounds 0 1 (analyzeEmotionJson provider).emotions.sadness ∧
      jsInBounds 0 1 (analyzeEmotionJson provider).emotions.anger ∧
      jsInBounds 0 1 (analyzeEmotionJson provider).emotions.fear ∧
      jsInBounds 0 1 (analyzeEmotionJson provider).emotions.surprise ∧
      jsInBounds 0 1 (analyzeEmotionJson provider).emotions.disgust ∧
      jsInBounds 0 1 (analyzeEmotionJson provider).emotions.trust ∧
      jsInBounds 0 1 (analyzeEmotionJson provider).emotions.anticipation ∧
      jsInBounds 0 1 (analyzeEmotionJson provider).psychologicalInsights.stressLevel ∧
      jsInBounds 0 1 (analyzeEmotionJson provider).psychologicalInsights.engagementLevel ∧
      jsInBounds 0 1 (analyzeEmotionJson provider).psychologicalInsights.cognitiveLoad ∧
      jsInBounds 0 1 (analyzeEmotionJson provider).psychologicalInsights.emotionalStability ∧
      jsInBounds 0 1 (analyzeEmotionJson provider).contextualFactors.formality ∧
      jsInBounds 0 1 (analyzeEmotionJson provider).contextualFactors.urgency ∧
      jsInBounds 0 1 (analyzeEmotionJson provider).contextualFactors.clarity ∧
      jsInBounds 0 1 (analyzeEmotionJson provider).contextualFactors.empathy) := by
  have h01 : (0 : Rat) ≤ 1 := by norm_num
  have h11 : (-1 : Rat) ≤ 1 := by norm_num
  cases provider with
  | error e =>
    refine ⟨Or.inr (Or.inr rfl), ?_, ?_, ?_⟩
    · norm_num [analyzeEmotionJson, neutralFallbackJson]
    · intro resp h
      exact absurd h (by simp)
    · intro _
      refine ⟨?_, ?_, ?_, ?_, ?_, ?_, ?_, ?_, ?_, ?_, ?_, ?_, ?_, ?_, ?_, ?_, ?_⟩ <;>
        norm_num [analyzeEmotionJson, neutralFallbackJson, jsInBounds]
  | ok resp =>
    simp only [analyzeEmotionJson, normalizeEmotionResultJson]
    refine ⟨normalizeSentiment_mem _, ?_, ?_, ?_⟩
    · cases hrec : resp.recommendations with
      | none => simp
      | some l =>
        simp only [List.length_take]
        omega
    · intro resp2 h
      injection h with h2
      subst h2
      exact ⟨clampJs_jsOrRaw_ok _ _ _ h11 _, clampJs_jsOrRaw_ok _ _ _ h01 _,
        clampJs_jsOrRaw_ok _ _ _ h01 _, clampJs_jsOrRaw_ok _ _ _ h01 _,
        clampJs_jsOrRaw_ok _ _ _ h01 _, clampJs_jsOrRaw_ok _ _ _ h01 _,
        clampJs_jsOrRaw_ok _ _ _ h01 _, clampJs_jsOrRaw_ok _ _ _ h01 _,
        clampJs_jsOrRaw_ok _ _ _ h01 _, clampJs_jsOrRaw_ok _ _ _ h01 _,
        clampJs_jsOrRaw_ok _ _ _ h01 _, clampJs_jsOrRaw_ok _ _ _ h01 _,
        clampJs_jsOrRaw_ok _ _ _ h01 _, clampJs_jsOrRaw_ok _ _ _ h01 _,
        clampJs_jsOrRaw_ok _ _ _ h01 _, clampJs_jsOrRaw_ok _ _ _ h01 _,
        clampJs_jsOrRaw_ok _ _ _ h01 _⟩
    · intro h
      exact absurd h (by simp)

/-- C10 witness: the amended theorem at the concrete response whose joy
field is truthy and non-numeric, discharging the `Except.ok` hypothesis. -/
theorem claim_C10_emotion_bounds_amended_witness :
    ((analyzeEmotionJson (Except.ok badEmotionResponse)).sentiment = "positive" ∨
      (analyzeEmotionJson (Except.ok badEmotionResponse)).sentiment = "negative" ∨
      (analyzeEmotionJson (Except.ok badEmotionResponse)).sentiment = "neutral") ∧
    clampedFieldOk 0 1 (badEmotionResponse.emotions.getD {}).joy
      ((analyzeEmotionJson (Except.ok badEmotionResponse)).emotions.joy) :=
  ⟨(claim_C10_emotion_bounds_amended (Except.ok badEmotionResponse)).1,
    ((claim_C10_emotion_bounds_amended (Except.ok badEmotionResponse)).2.2.1
      badEmotionResponse rfl).2.1⟩

lemma transcribeAudio_whitespace (buf : Buf) (w : String)
    (hw : (strTrim w).length = 0) :
    ∃ msg, transcribeAudio buf (Except.ok w) = Except.error msg := by
  by_cases h0 : buf.length = 0
  · exact ⟨"No audio data provided", by simp [transcribeAudio, h0]⟩
  · by_cases h1 : buf.length < 1024
    · exact ⟨"Audio data too small to process", by simp [transcribeAudio, h0, h1]⟩
    · exact ⟨"No speech detected in audio", by simp [transcribeAudio, h0, h1, hw]⟩

/-- C4: whenever the transcription provider returns an empty or
whitespace-only string, the request terminates as failed: an error event is
sent to the connection and no Turn — user or assistant — and no emotion
record is persisted for that request, for every outcome of the other
providers. -/
theorem claim_C4_empty_transcript (sessionId : Nat) (audioBuffer : Buf) (w : String)
    (hw : (strTrim w).length = 0)
    (emotionProvider : Except Unit RawEmotionResponse)
    (genProvider : Except Unit AIResponse) (ultraTimerFires : Bool)
    (conversations0 : List StoredConversation)
    (emotionRecords0 : List StoredEmotionAnalysis) :
    OutEvent.errorEvent ∈ (handleAudioDataFlow (some sessionId) audioBuffer
      (Except.ok w) emotionProvider genProvider ultraTimerFires
      conversations0 emotionRecords0).events ∧
    (handleAudioDataFlow (some sessionId) audioBuffer (Except.ok w) emotionProvider
      genProvider ultraTimerFires conversations0 emotionRecords0).conversations =
      conversations0 ∧
    (handleAudioDataFlow (some sessionId) audioBuffer (Except.ok w) emotionProvider
      genProvider ultraTimerFires conversations0 emotionRecords0).emotionRecords =
      emotionRecords0 := by
  obtain ⟨msg, hmsg⟩ := transcribeAudio_whitespace audioBuffer w hw
  refine ⟨?_, ?_, ?_⟩ <;> simp [handleAudioDataFlow, hmsg]

/-- C4 witness: a 2048-byte buffer whose transcription comes back as three
spaces yields an error event and leaves the stores untouched. -/
theorem claim_C4_empty_transcript_witness :
    OutEvent.errorEvent ∈ (handleAudioDataFlow (some 1) (List.replicate 2048 0)
      (Except.ok "   ") (Except.error ()) (Except.error ()) true [] []).events ∧
    (handleAudioDataFlow (some 1) (List.replicate 2048 0) (Except.ok "   ")
      (Except.error ()) (Except.error ()) true [] []).conversations = [] ∧
    (handleAudioDataFlow (some 1) (List.replicate 2048 0) (Except.ok "   ")
      (Except.error ()) (Except.error ()) true [] []).emotionRecords = [] :=
  claim_C4_empty_transcript 1 (List.replicate 2048 0) "   " (by decide)
    (Except.error ()) (Except.error ()) true [] []

lemma filter_session_getLast (l : List StoredConversation) (sid : Nat)
    (u a : StoredConversation) (hu : u.sessionId = sid) (ha : a.sessionId = sid) :
    ((l ++ [u] ++ [a]).filter (fun c => c.sessionId = sid)).getLast? = some a := by
  rw [List.append_assoc, List.filter_append]
  have hfu : List.filter (fun c => decide (c.sessionId = sid)) ([u] ++ [a]) = u :: [a] := by
    simp [hu, ha]
  rw [hfu, List.getLast?_append_cons]
  rfl

/-- C5: when the scoring provider call fails, the background path does not
abort: the neutral fallback record — sentiment `"neutral"`, the balanced
fallback category scores, sentiment score 0 — is substituted and persisted,
and the `emotion_analysis_complete` analysis event is still emitted,
followed by `ai_response_ready` (generation proceeding normally). -/
theorem claim_C5_scoring_fallback (sessionId : Nat) (text : String) (confidence : Rat)
    (ai : AIResponse) (conversations0 : List StoredConversation)
    (emotionRecords0 : List StoredEmotionAnalysis) :
    (processBackgroundAnalysis true sessionId text confidence (Except.error ())
        (Except.ok ai) conversations0 emotionRecords0).events =
      [OutEvent.emotionAnalysisComplete, OutEvent.aiResponseReady] ∧
    ∃ r, (processBackgroundAnalysis true sessionId text confidence (Except.error ())
        (Except.ok ai) conversations0 emotionRecords0).emotionRecords =
        emotionRecords0 ++ [r] ∧
      r.sentiment = "neutral" ∧ r.sentimentScore = 0 ∧
      r.emotions = neutralFallback.emotions := by
  refine ⟨rfl, ?_⟩
  refine ⟨{ conversationId := conversations0.length + 1,
            sentiment := "neutral",
            sentimentScore := 0,
            emotions := neutralFallback.emotions,
            dominantEmotion := "neutral",
            emotionalIntensity := 3 / 10,
            confidence := 5 / 10,
            psychologicalInsights := neutralFallback.psychologicalInsights,
            contextualFactors := neutralFallback.contextualFactors,
            recommendations := neutralFallback.recommendations }, ?_, rfl, rfl, rfl⟩
  simp only [processBackgroundAnalysis]
  rw [filter_session_getLast conversations0 sessionId _ _ rfl rfl]
  simp [analyzeEmotion, neutralFallback]

set_option maxRecDepth 100000 in
/-- C2 (code bug): one successfully transcribed audio message on an active
session persists THREE user Turns with the transcript, not exactly one —
`processVoiceForRealtime` spawns `processBackgroundAnalysis` internally
(part_002 line 345), `handleAudioData` spawns it again with a callback
(websocket.ts line 223), and the ultra-fast flush stores a third user
record (part_003 line 81). -/
theorem claim_C2_duplicate_user_turns :
    ((handleAudioDataFlow (some 1) (List.replicate 1024 0) (Except.ok "hello")
        (Except.ok {}) (Except.ok { content := "hi there", model := "gpt-4o" }) true
        [] []).conversations.filter (fun c => c.type = "user")).length = 3 ∧
    ∀ c ∈ (handleAudioDataFlow (some 1) (List.replicate 1024 0) (Except.ok "hello")
        (Except.ok {}) (Except.ok { content := "hi there", model := "gpt-4o" }) true
        [] []).conversations.filter (fun c => c.type = "user"), c.content = "hello" := by
  decide

/-- C3: under every interleaving of provider latencies, every
`emotion_analysis_complete` or `ai_response_ready` event in a reachable
trace of a request is strictly preceded in that trace by the request's
`transcript_ready` event. -/
theorem claim_C3_transcript_before_background {s : PipelineRunState}
    (h : PipelineReachable s) :
    ∀ l1 e l2, s.trace = l1 ++ e :: l2 →
      (e = OutEvent.emotionAnalysisComplete ∨ e = OutEvent.aiResponseReady) →
      OutEvent.transcriptReady ∈ l1 := by
  intro l1 e l2 hsplit he
  have hinv := pipelineInv_reachable h
  have hbg : isBackgroundEvt e = true := by
    rcases he with he | he <;> subst he <;> rfl
  rcases fastBeforeBgAux_split s.trace l1 l2 e false hinv.1 hsplit hbg with hfalse | hmem
  · simp at hfalse
  · exact hmem

lemma fullRunReachable :
    PipelineReachable
      { fastPC := 4, bgPC := 5, ultraPC := 1,
        trace := [OutEvent.processing, OutEvent.transcriptReady,
          OutEvent.emotionAnalysisComplete, OutEvent.aiResponseReady] } := by
  have h0 := PipelineReachable.init
  have h1 := PipelineReachable.step h0 (PipelineStep.emitProcessing _ rfl)
  have h2 := PipelineReachable.step h1 (PipelineStep.fastTranscribed _ rfl)
  have h3 := PipelineReachable.step h2 (PipelineStep.emitTranscriptReady _ rfl)
  have h4 := PipelineReachable.step h3 (PipelineStep.spawnBackground _ rfl)
  have h5 := PipelineReachable.step h4 (PipelineStep.bgAnalyzed _ rfl)
  have h6 := PipelineReachable.step h5 (PipelineStep.bgGenerated _ rfl)
  have h7 := PipelineReachable.step h6 (PipelineStep.emitEmotionComplete _ rfl)
  have h8 := PipelineReachable.step h7 (PipelineStep.emitAiReady _ rfl)
  exact h8

/-- C3 witness: the theorem applied to a concrete complete run, splitting
its trace at `emotion_analysis_complete`. -/
theorem claim_C3_transcript_before_background_witness :
    OutEvent.transcriptReady ∈ [OutEvent.processing, OutEvent.transcriptReady] :=
  claim_C3_transcript_before_background fullRunReachable
    [OutEvent.processing, OutEvent.transcriptReady] OutEvent.emotionAnalysisComplete
    [OutEvent.aiResponseReady] rfl (Or.inl rfl)

/-! ### C9 helper lemmas: what one sweep step can do to the state -/

lemma endVoiceSession_clients (st : ServerState) (cid : String) :
    (endVoiceSession st cid).clients = st.clients ∨
    (endVoiceSession st cid).clients =
      st.clients.map (fun x => if x.id = cid then { x with sessionId := none } else x) := by
  unfold endVoiceSession
  cases hf : st.clients.find? (fun c => c.id = cid) with
  | none => exact Or.inl rfl
  | some c =>
    cases hs : c.sessionId with
    | none =>
      left
      simp [hs]
    | some sid =>
      right
      simp [hs]

lemma endVoiceSession_sessions (st : ServerState) (cid : String) :
    (endVoiceSession st cid).sessions = st.sessions ∨
    ∃ sid, (endVoiceSession st cid).sessions = endVoiceSessionStore st.sessions sid := by
  unfold endVoiceSession
  cases hf : st.clients.find? (fun c => c.id = cid) with
  | none => exact Or.inl rfl
  | some c =>
    cases hs : c.sessionId with
    | none =>
      left
      simp [hs]
    | some sid =>
      right
      exact ⟨sid, by simp [hs]⟩

lemma handleDisconnection_cases (st : ServerState) (cid : String) :
    (st.clients.find? (fun c => c.id = cid) = none ∧ handleDisconnection st cid = st) ∨
    ∃ st1 : ServerState,
      (st1.clients = st.clients ∨
        st1.clients = st.clients.map
          (fun x => if x.id = cid then { x with sessionId := none } else x)) ∧
      (st1.sessions = st.sessions ∨
        ∃ sid, st1.sessions = endVoiceSessionStore st.sessions sid) ∧
      handleDisconnection st cid =
        { clients := st1.clients.filter (fun x => x.id ≠ cid),
          sessions := st1.sessions } := by
  unfold handleDisconnection
  cases hf : st.clients.find? (fun c => c.id = cid) with
  | none => exact Or.inl ⟨rfl, rfl⟩
  | some c =>
    refine Or.inr ?_
    by_cases hs : c.sessionId.isSome
    · exact ⟨endVoiceSession st cid, endVoiceSession_clients st cid,
        endVoiceSession_sessions st cid, by simp [hs]⟩
    · exact ⟨st, Or.inl rfl, Or.inl rfl, by simp [hs]⟩

lemma handleDisconnection_no_cid (st : ServerState) (cid : String) :
    ∀ x ∈ (handleDisconnection st cid).clients, x.id ≠ cid := by
  intro x hx
  rcases handleDisconnection_cases st cid with ⟨hf, heq⟩ | ⟨st1, _, _, heq⟩
  · rw [heq] at hx
    have := List.find?_eq_none.mp hf x hx
    simpa using this
  · rw [heq] at hx
    have := (List.mem_filter.mp hx).2
    simpa using this

lemma handleDisconnection_id_from (st : ServerState) (cid : String) :
    ∀ x ∈ (handleDisconnection st cid).clients, ∃ y ∈ st.clients, y.id = x.id := by
  intro x hx
  rcases handleDisconnection_cases st cid with ⟨_, heq⟩ | ⟨st1, hc, _, heq⟩
  · rw [heq] at hx
    exact ⟨x, hx, rfl⟩
  · rw [heq] at hx
    have hx1 : x ∈ st1.clients := (List.mem_filter.mp hx).1
    rcases hc with hc | hc
    · rw [hc] at hx1
      exact ⟨x, hx1, rfl⟩
    · rw [hc] at hx1
      rcases List.mem_map.mp hx1 with ⟨y, hy, hyx⟩
      subst hyx
      refine ⟨y, hy, ?_⟩
      by_cases hid : y.id = cid <;> simp [hid]

lemma endVoiceSessionStore_inactive (ss : List VoiceSession) (sid : Nat) :
    ∀ v ∈ endVoiceSessionStore ss sid, v.id = sid → v.isActive = false := by
  intro v hv hvid
  rcases List.mem_map.mp hv with ⟨u, hu, huv⟩
  subst huv
  by_cases h2 : u.id = sid
  · simp [h2]
  · simp [h2] at hvid

lemma endVoiceSessionStore_keeps (ss : List VoiceSession) (sid sid2 : Nat)
    (h : ∀ v ∈ ss, v.id = sid → v.isActive = false) :
    ∀ v ∈ endVoiceSessionStore ss sid2, v.id = sid → v.isActive = false := by
  intro v hv hvid
  rcases List.mem_map.mp hv with ⟨u, hu, huv⟩
  subst huv
  by_cases h2 : u.id = sid2
  · simp [h2]
  · simp [h2] at hvid ⊢
    exact h u hu hvid

lemma handleDisconnection_sessions_keeps (st : ServerState) (cid : String) (sid : Nat)
    (h : ∀ v ∈ st.sessions, v.id = sid → v.isActive = false) :
    ∀ v ∈ (handleDisconnection st cid).sessions, v.id = sid → v.isActive = false := by
  rcases handleDisconnection_cases st cid with ⟨_, heq⟩ | ⟨st1, _, hsx, heq⟩
  · rw [heq]
    exact h
  · rw [heq]
    rcases hsx with hsx | ⟨sid2, hsx⟩
    · rw [hsx]
      exact h
    · rw [hsx]
      exact endVoiceSessionStore_keeps st.sessions sid sid2 h

/-- The record of client `c` survives intact, and stays the unique record
with its id, through operations that target other client ids. -/
def holdsC (c : ClientConn) (acc : ServerState) : Prop :=
  c ∈ acc.clients ∧ ∀ x ∈ acc.clients, x.id = c.id → x = c

lemma holdsC_map (l : List ClientConn) (c : ClientConn) (cid : String)
    (hne : cid ≠ c.id) (h1 : c ∈ l) (h2 : ∀ x ∈ l, x.id = c.id → x = c) :
    c ∈ l.map (fun x => if x.id = cid then { x with sessionId := none } else x) ∧
    ∀ x ∈ l.map (fun x => if x.id = cid then { x with sessionId := none } else x),
      x.id = c.id → x = c := by
  have hcfix : (if c.id = cid then { c with sessionId := none } else c) = c := by
    rw [if_neg (fun hcc => hne hcc.symm)]
  constructor
  · have := List.mem_map_of_mem
      (fun x => if x.id = cid then { x with sessionId := none } else x) h1
    simpa [hcfix] using this
  · intro x hx hxid
    rcases List.mem_map.mp hx with ⟨y, hy, hyx⟩
    subst hyx
    have hyid : y.id = c.id := by
      by_cases hid : y.id = cid <;> simpa [hid] using hxid
    have hyc : y = c := h2 y hy hyid
    subst hyc
    exact hcfix

lemma handleDisconnection_holdsC (st : ServerState) (cid : String) (c : ClientConn)
    (hne : cid ≠ c.id) (h : holdsC c st) : holdsC c (handleDisconnection st cid) := by
  obtain ⟨h1, h2⟩ := h
  rcases handleDisconnection_cases st cid with ⟨_, heq⟩ | ⟨st1, hc, _, heq⟩
  · rw [heq]
    exact ⟨h1, h2⟩
  · rw [heq]
    have hst1 : c ∈ st1.clients ∧ ∀ x ∈ st1.clients, x.id = c.id → x = c := by
      rcases hc with hc | hc
      · rw [hc]
        exact ⟨h1, h2⟩
      · rw [hc]
        exact holdsC_map st.clients c cid hne h1 h2
    constructor
    · exact List.mem_filter.mpr ⟨hst1.1, by simpa using fun hcc => hne hcc.symm⟩
    · intro x hx hxid
      exact hst1.2 x (List.mem_filter.mp hx).1 hxid

lemma sweepStep_holdsC (now : Nat) (acc : ServerState) (cl c : ClientConn)
    (hne : cl.id ≠ c.id) (h : holdsC c acc) : holdsC c (sweepStep now acc cl) := by
  unfold sweepStep
  split
  · exact handleDisconnection_holdsC acc cl.id c hne h
  · exact h

lemma foldl_holdsC (now : Nat) (l : List ClientConn) :
    ∀ (acc : ServerState) (c : ClientConn), (∀ y ∈ l, y.id ≠ c.id) → holdsC c acc →
      holdsC c (l.foldl (sweepStep now) acc) := by
  induction l with
  | nil =>
    intro acc c _ h
    exact h
  | cons cl rest ih =>
    intro acc c hl h
    rw [List.foldl_cons]
    exact ih _ c (fun y hy => hl y (List.mem_cons_of_mem _ hy))
      (sweepStep_holdsC now acc cl c (hl cl (List.mem_cons_self _ _)) h)

lemma sweepStep_no_cid (now : Nat) (acc : ServerState) (cl : ClientConn) (cid : String)
    (h : ∀ x ∈ acc.clients, x.id ≠ cid) :
    ∀ x ∈ (sweepStep now acc cl).clients, x.id ≠ cid := by
  unfold sweepStep
  split
  · intro x hx
    rcases handleDisconnection_id_from acc cl.id x hx with ⟨y, hy, hyx⟩
    rw [← hyx]
    exact h y hy
  · exact h

lemma foldl_no_cid (now : Nat) (l : List ClientConn) :
    ∀ (acc : ServerState) (cid : String), (∀ x ∈ acc.clients, x.id ≠ cid) →
      ∀ x ∈ (l.foldl (sweepStep now) acc).clients, x.id ≠ cid := by
  induction l with
  | nil =>
    intro acc cid h
    exact h
  | cons cl rest ih =>
    intro acc cid h
    rw [List.foldl_cons]
    exact ih (sweepStep now acc cl) cid (sweepStep_no_cid now acc cl cid h)

lemma sweepStep_sessions_keeps (now : Nat) (acc : ServerState) (cl : ClientConn) (sid : Nat)
    (h : ∀ v ∈ acc.sessions, v.id = sid → v.isActive = false) :
    ∀ v ∈ (sweepStep now acc cl).sessions, v.id = sid → v.isActive = false := by
  unfold sweepStep
  split
  · exact handleDisconnection_sessions_keeps acc cl.id sid h
  · exact h

lemma foldl_sessions_keeps (now : Nat) (l : List ClientConn) :
    ∀ (acc : ServerState) (sid : Nat),
      (∀ v ∈ acc.sessions, v.id = sid → v.isActive = false) →
      ∀ v ∈ (l.foldl (sweepStep now) acc).sessions, v.id = sid → v.isActive = false := by
  induction l with
  | nil =>
    intro acc sid h
    exact h
  | cons cl rest ih =>
    intro acc sid h
    rw [List.foldl_cons]
    exact ih (sweepStep now acc cl) sid (sweepStep_sessions_keeps now acc cl sid h)

lemma sweepStep_evicts (now : Nat) (acc : ServerState) (c : ClientConn) (sid : Nat)
    (hstale : staleThreshold < now - c.lastActivity)
    (hsid : c.sessionId = some sid) (h : holdsC c acc) :
    (∀ x ∈ (sweepStep now acc c).clients, x.id ≠ c.id) ∧
    (∀ v ∈ (sweepStep now acc c).sessions, v.id = sid → v.isActive = false) := by
  obtain ⟨h1, h2⟩ := h
  have hfind : acc.clients.find? (fun x => x.id = c.id) = some c := by
    cases hf : acc.clients.find? (fun x => x.id = c.id) with
    | none =>
      have := List.find?_eq_none.mp hf c h1
      simp at this
    | some y =>
      have hyp := List.find?_some hf
      have hymem : y ∈ acc.clients := List.mem_of_find?_eq_some hf
      have hyc : y = c := h2 y hymem (by simpa using hyp)
      rw [hyc]
  unfold sweepStep
  rw [if_pos hstale]
  constructor
  · exact handleDisconnection_no_cid acc c.id
  · have hsess : (handleDisconnection acc c.id).sessions =
        endVoiceSessionStore acc.sessions sid := by
      unfold handleDisconnection endVoiceSession
      simp [hfind, hsid]
    rw [hsess]
    exact endVoiceSessionStore_inactive acc.sessions sid

/-- C9: every registered connection with no inbound activity for strictly
longer than the idle threshold is, on the next periodic sweep, unregistered
from the connection registry, and its bound session is marked inactive as
part of teardown. -/
theorem claim_C9_idle_eviction (st : ServerState) (now : Nat) (c : ClientConn) (sid : Nat)
    (hmem : c ∈ st.clients)
    (hnodup : (st.clients.map ClientConn.id).Nodup)
    (hstale : staleThreshold < now - c.lastActivity)
    (hsid : c.sessionId = some sid) :
    (∀ x ∈ (startHealthCheckSweep st now).clients, x.id ≠ c.id) ∧
    (∀ v ∈ (startHealthCheckSweep st now).sessions, v.id = sid → v.isActive = false) := by
  obtain ⟨l1, l2, hsplit⟩ := List.append_of_mem hmem
  have hids : (l1.map ClientConn.id ++ c.id :: l2.map ClientConn.id).Nodup := by
    rw [hsplit] at hnodup
    simpa using hnodup
  have hl1 : ∀ y ∈ l1, y.id ≠ c.id := by
    intro y hy heq
    have hdisj := (List.nodup_append.mp hids).2.2
    exact hdisj (List.mem_map_of_mem ClientConn.id hy) (by simp [heq])
  have hl2 : ∀ y ∈ l2, y.id ≠ c.id := by
    intro y hy heq
    have hnc := (List.nodup_cons.mp ((List.nodup_append.mp hids).2.1)).1
    exact hnc (by
      rw [← heq]
      exact List.mem_map_of_mem ClientConn.id hy)
  have hC0 : holdsC c st := by
    refine ⟨hmem, ?_⟩
    intro x hx hxid
    rw [hsplit] at hx
    rcases List.mem_append.mp hx with hx | hx
    · exact absurd hxid (hl1 x hx)
    · rcases List.mem_cons.mp hx with hx | hx
      · exact hx
      · exact absurd hxid (hl2 x hx)
  have hrw : startHealthCheckSweep st now =
      l2.foldl (sweepStep now) (sweepStep now (l1.foldl (sweepStep now) st) c) := by
    unfold startHealthCheckSweep
    rw [hsplit, List.foldl_append, List.foldl_cons]
  have hC1 : holdsC c (l1.foldl (sweepStep now) st) := foldl_holdsC now l1 st c hl1 hC0
  have hev := sweepStep_evicts now (l1.foldl (sweepStep now) st) c sid hstale hsid hC1
  rw [hrw]
  exact ⟨foldl_no_cid now l2 _ c.id hev.1, foldl_sessions_keeps now l2 _ sid hev.2⟩

/-- C9 witness: a one-client registry idle for six minutes is emptied by
the sweep and its session 5 is deactivated. -/
theorem claim_C9_idle_eviction_witness :
    (∀ x ∈ (startHealthCheckSweep
        { clients := [{ id := "client_a", sessionId := some 5, lastActivity := 0 }],
          sessions := [{ id := 5, isActive := true }] } 360000).clients,
      x.id ≠ "client_a") ∧
    (∀ v ∈ (startHealthCheckSweep
        { clients := [{ id := "client_a", sessionId := some 5, lastActivity := 0 }],
          sessions := [{ id := 5, isActive := true }] } 360000).sessions,
      v.id = 5 → v.isActive = false) :=
  claim_C9_idle_eviction
    { clients := [{ id := "client_a", sessionId := some 5, lastActivity := 0 }],
      sessions := [{ id := 5, isActive := true }] } 360000
    { id := "client_a", sessionId := some 5, lastActivity := 0 } 5
    (by simp) (by simp) (by decide) rfl

end Qivo
